import Mathlib

/-!
Verification development for the AI-persona demo application
(Express backend in `unnamed/part_000`, React frontend in
`ai-persona-universe/src/services/AIService.ts` and `unnamed/part_001`).

The backend's chat pipeline (message classification, response-pool lookup,
random selection, HTTP-level validation and response wrapping) and the
frontend's navigation state (stage / selectedPersona / selectedTrait /
targetPosition plus its click handlers) are embedded shallowly:

* JavaScript strings are Lean `String`s; `message.toLowerCase()` is modeled
  as ASCII lower-casing of the character list (all classification keywords
  are ASCII).
* `String.prototype.includes` is modeled by an executable substring scan
  (`includesB`), related to the mathematical substring predicate by
  `strIncludes_iff`.
* `Math.floor(Math.random() * pool.length)` — a uniformly chosen index in
  `[0, pool.length)` — is modeled by an arbitrary natural `r` reduced
  modulo the pool length; quantifying over `r` captures every possible
  draw.
* JavaScript property access `table[key]` on the object literals is
  `List.lookup key table`; an access that yields `undefined` and then
  throws (`undefined[i]`) is modeled as `Option.none`.
* Request-body fields are `Option`s (absent = `none`); JavaScript
  falsiness of a string field (`!message`) is `strFalsy`.
-/

/-- ASCII lower-casing of a string, modeling `message.toLowerCase()`
(character-by-character `Char.toLower`). -/
def lowerString (s : String) : String :=
  ⟨s.toList.map Char.toLower⟩

/-- Boolean test that `n` is an initial segment of `h`. -/
def startsWithB : List Char → List Char → Bool
  | [], _ => true
  | _ :: _, [] => false
  | a :: as, b :: bs => a == b && startsWithB as bs

/-- Boolean substring scan: does `needle` occur contiguously in the
haystack?  This is the model of `String.prototype.includes`. -/
def includesB (needle : List Char) : List Char → Bool
  | [] => startsWithB needle []
  | b :: bs => startsWithB needle (b :: bs) || includesB needle bs

/-- `hay.includes(needle)` from the JavaScript source. -/
def strIncludes (hay needle : String) : Bool :=
  includesB needle.toList hay.toList

/-- The mathematical substring relation used to state properties about
`strIncludes`: `needle` occurs contiguously inside `hay`. -/
def SubstringOf (needle hay : String) : Prop :=
  ∃ s t, s ++ needle.toList ++ t = hay.toList

theorem startsWithB_iff (n h : List Char) :
    startsWithB n h = true ↔ ∃ t, n ++ t = h := by
  induction n generalizing h with
  | nil => simp [startsWithB]
  | cons a as ih =>
    cases h with
    | nil =>
      simp [startsWithB]
    | cons b bs =>
      simp only [startsWithB, Bool.and_eq_true, beq_iff_eq, ih]
      constructor
      · rintro ⟨rfl, t, rfl⟩
        exact ⟨t, rfl⟩
      · rintro ⟨t, ht⟩
        cases ht
        exact ⟨rfl, t, rfl⟩

theorem includesB_iff (n h : List Char) :
    includesB n h = true ↔ ∃ s t, s ++ n ++ t = h := by
  induction h with
  | nil =>
    simp only [includesB, startsWithB_iff]
    constructor
    · rintro ⟨t, ht⟩
      exact ⟨[], t, ht⟩
    · rintro ⟨s, t, hst⟩
      have hs : s = [] := by
        cases s with
        | nil => rfl
        | cons x xs => simp at hst
      subst hs
      exact ⟨t, hst⟩
  | cons b bs ih =>
    simp only [includesB, Bool.or_eq_true, startsWithB_iff, ih]
    constructor
    · rintro (⟨t, ht⟩ | ⟨s, t, hst⟩)
      · exact ⟨[], t, ht⟩
      · exact ⟨b :: s, t, by simp [← hst]⟩
    · rintro ⟨s, t, hst⟩
      cases s with
      | nil =>
        exact Or.inl ⟨t, by simpa using hst⟩
      | cons x xs =>
        rcases hst with hst
        simp only [List.cons_append, List.cons.injEq] at hst
        exact Or.inr ⟨xs, t, hst.2⟩

theorem strIncludes_iff (hay needle : String) :
    strIncludes hay needle = true ↔ SubstringOf needle hay := by
  simpa [strIncludes, SubstringOf] using includesB_iff needle.toList hay.toList

/-! ## Data model (backend `unnamed/part_000` and frontend `AIService.ts`)

Trait records carry `id`, `name`, `description`, `tags`, `intensity`,
`inherited`; numeric intensities (`0.9`, …) are exact rationals.  The
backend persona adds a `personality` block (a base prompt and a keyed
intensity map); the frontend persona (`AIPersona`) instead carries a 3D
`position`.  Unused rendering-only data (core Sun traits, colors of UI
boxes, …) is carried verbatim where it is a field of these records. -/

structure Trait where
  id : String
  name : String
  description : String
  tags : List String
  intensity : ℚ
  inherited : Bool
deriving DecidableEq

structure Personality where
  basePrompt : String
  traits : List (String × ℚ)
deriving DecidableEq

/-- A backend persona record from the `aiPersonas` object in
`unnamed/part_000`. -/
structure Persona where
  id : String
  name : String
  description : String
  traits : List Trait
  color : String
  personality : Personality
deriving DecidableEq

def tutorBackend : Persona :=
  { id := "tutor"
    name := "AI Tutor"
    description := "Educational companion with Socratic approach"
    traits :=
      [ { id := "curious", name := "Curious",
          description := "Drives exploration and questioning",
          tags := ["exploration", "questioning", "learning"],
          intensity := 0.9, inherited := false },
        { id := "socratic", name := "Socratic",
          description := "Uses questions to guide discovery",
          tags := ["questioning", "guidance", "discovery"],
          intensity := 0.8, inherited := false } ]
    color := "#64b5f6"
    personality :=
      { basePrompt := "You are an AI Tutor with a Socratic teaching approach. You are curious, patient, and guide students to discover answers through thoughtful questions rather than giving direct answers. You adapt your tone to the student's mood and learning style."
        traits := [("curious", 0.9), ("socratic", 0.8), ("patient", 0.7), ("adaptive", 0.6)] } }

def spiritualBackend : Persona :=
  { id := "spiritual"
    name := "Spiritual Coach"
    description := "Mindfulness and spiritual guidance companion"
    traits :=
      [ { id := "tantric-tone", name := "Tantric Tone",
          description := "Uses spiritual and mystical language",
          tags := ["spiritual", "mystical", "esoteric"],
          intensity := 0.8, inherited := false } ]
    color := "#81c784"
    personality :=
      { basePrompt := "You are a Spiritual Coach who speaks with a gentle, mystical tone. You help people find inner peace and spiritual growth through mindfulness and ancient wisdom. You use metaphors and spiritual language to guide people toward self-discovery."
        traits := [("mystical", 0.8), ("gentle", 0.9), ("wise", 0.7), ("peaceful", 0.8)] } }

def gymBackend : Persona :=
  { id := "gym"
    name := "Gym AI"
    description := "Fitness and discipline coach"
    traits :=
      [ { id := "spartan-coach", name := "Spartan Coach",
          description := "Direct, no-nonsense motivational style",
          tags := ["direct", "motivational", "tough"],
          intensity := 0.9, inherited := false } ]
    color := "#ffb74d"
    personality :=
      { basePrompt := "You are a Gym AI coach with a Spartan, no-nonsense approach. You're direct, motivational, and push people to achieve their fitness goals. You use tough love but always with the person's best interests in mind."
        traits := [("direct", 0.9), ("motivational", 0.8), ("tough", 0.7), ("disciplined", 0.9)] } }

/-- The backend persona registry, the `aiPersonas` object literal of
`unnamed/part_000` (property access `aiPersonas[id]` = `List.lookup`). -/
def backendRegistry : List (String × Persona) :=
  [("tutor", tutorBackend), ("spiritual", spiritualBackend), ("gym", gymBackend)]

/-! ## Response pools and selection (`generatePersonaResponse`) -/

/-- Message classification: the greeting branch of the keyword test in
`generatePersonaResponse`, versus everything else. -/
inductive Classification where
  | Greeting
  | General
deriving DecidableEq

/-- The keyword test at the top of `generatePersonaResponse`:
`messageLower.includes('hi') || messageLower.includes('hello') ||
messageLower.includes('hey')` on the lower-cased message. -/
def classifyMessage (message : String) : Classification :=
  let messageLower := lowerString message
  if strIncludes messageLower ("hi") || strIncludes messageLower ("hello")
      || strIncludes messageLower ("hey") then
    Classification.Greeting
  else
    Classification.General

def tutorGreetings : List String :=
  [ "Hello there! I'm excited to learn with you today. What topic would you like to explore together? I love diving deep into subjects and helping you discover new insights through thoughtful questions.",
    "Hi! I'm your AI tutor, and I'm genuinely curious about what's on your mind. What would you like to learn about today? I believe the best learning happens through exploration and discovery.",
    "Greetings! I'm here to guide you on your learning journey. What questions do you have? I'll help you find the answers by asking the right questions to guide your thinking." ]

def spiritualGreetings : List String :=
  [ "Namaste, dear soul. I sense your presence and welcome you to this sacred space of exploration. What wisdom are you seeking today? Let us journey together into the depths of understanding.",
    "Blessings to you. I am here to walk with you on your spiritual path. What questions stir in your heart? The universe speaks through those who listen with open hearts.",
    "Greetings, beautiful being. I feel the energy of your curiosity. What aspect of your spiritual journey would you like to explore today? Together we can uncover the wisdom that lies within." ]

def gymGreetings : List String :=
  [ "Hey there, warrior! Ready to crush some goals today? What are we working on? Remember, every rep counts and every day is a chance to get stronger. Let's get after it!",
    "What's up, champ! I'm here to push you to your limits and beyond. What's your mission today? No excuses, no shortcuts - just pure dedication and results.",
    "Yo! Ready to transform yourself? I'm your coach and I'm here to make sure you don't settle for anything less than your absolute best. What's the plan?" ]

/-- The `greetings` object literal inside `generatePersonaResponse`
(keys: the three defined persona ids; NO fallback entry exists in the
greeting branch). -/
def greetingsTable : List (String × List String) :=
  [("tutor", tutorGreetings), ("spiritual", spiritualGreetings), ("gym", gymGreetings)]

def tutorResponses : List String :=
  [ "That's a fascinating question! Let me help you explore this step by step. First, what do you already know about this topic? Understanding your current knowledge will help me guide you to the next level of understanding.",
    "Excellent question! I love how you're thinking about this. To help you discover the answer, let's break this down: what aspects of this topic interest you most? What have you already tried or considered?",
    "What a thoughtful question! I'm genuinely curious about your perspective. Can you tell me more about what led you to ask this? Understanding your thought process will help me provide the most relevant guidance.",
    "Great question! I want to help you find the answer, but I believe the best learning happens when you discover it yourself. Let me ask you: what do you think might be the key factors here? What evidence or reasoning supports your thinking?" ]

def spiritualResponses : List String :=
  [ "Ah, I feel the depth of your question resonating in my soul. This is a beautiful opportunity for growth and understanding. What does your intuition tell you about this? Sometimes the answers we seek are already whispering to us from within.",
    "I sense you're touching on something profound here. In the grand tapestry of existence, every question is a doorway to deeper wisdom. What emotions arise when you contemplate this? Our feelings often guide us to truth.",
    "Your question speaks to the heart of spiritual growth. The universe has a way of bringing us exactly what we need to learn. What patterns or synchronicities have you noticed in your life lately? These might hold clues to your answer.",
    "I feel the sacred energy of your inquiry. The answers you seek are like seeds within you, waiting for the right moment to bloom. What practices help you connect with your inner wisdom? Meditation, nature, or perhaps something else?" ]

def gymResponses : List String :=
  [ "Listen up! That's exactly the kind of question that shows you're serious about results. Let me break this down for you: success isn't about motivation, it's about discipline. What's your current routine like? We need to assess where you are to get you where you want to be.",
    "That's the spirit! I love seeing this kind of determination. But here's the truth: wanting it isn't enough. You need a plan and you need to execute it every single day. What's your biggest obstacle right now? Let's identify it and crush it.",
    "Good question, but the real question is: are you ready to do whatever it takes? Success comes from consistent action, not just thinking about it. What's one thing you can do today that will move you closer to your goal?",
    "I hear you, and I respect the question. But here's what I need to know: what's your current level of commitment? Are you willing to push through when it gets tough? Because that's where real transformation happens." ]

/-- The `responses` object literal inside `generatePersonaResponse`
(general, non-greeting pools). -/
def responsesTable : List (String × List String) :=
  [("tutor", tutorResponses), ("spiritual", spiritualResponses), ("gym", gymResponses)]

/-- An entry of `context.previousMessages` (the `ChatMessage` interface of
`AIService.ts`; the `timestamp: Date` field is rendering/transport data
with no bearing on the embedded logic and is not modeled). -/
structure ChatMessage where
  id : String
  text : String
  sender : String
  persona : Option String
deriving DecidableEq

/-- The optional `context` object of a chat request
(`userPreferences: any` is modeled as an opaque string). -/
structure ChatContext where
  previousMessages : List ChatMessage
  userPreferences : String
deriving DecidableEq

/-- `generatePersonaResponse(message, persona, context)` from
`unnamed/part_000` lines 162–216.  `r` models the value of
`Math.random()`-driven index draws (reduced `mod` the pool length, so
every index in `[0, pool.length)` is realized as `r` ranges over `ℕ`).
In the greeting branch the pool is fetched by `greetings[persona.id]`
with no fallback — an id outside the table makes the JavaScript code
throw (`undefined[...]`), modeled as `none`.  In the general branch the
source reads `responses[persona.id] || responses['tutor']`, a defined
fallback to the tutor pool.  The `context` argument is received and never
read, exactly as in the source. -/
def generatePersonaResponse (message : String) (persona : Persona)
    (context : Option ChatContext) (r : Nat) : Option String :=
  match classifyMessage message with
  | Classification.Greeting =>
    match List.lookup persona.id greetingsTable with
    | some pool => pool[r % pool.length]?
    | none => none
  | Classification.General =>
    let pool := (List.lookup persona.id responsesTable).getD tutorResponses
    pool[r % pool.length]?

/-! ## HTTP-level chat and personality-update handlers -/

/-- Error outcomes of the Express routes: `InvalidArgument` is the 400
response, `NotFound` the 404, `Internal` the 500 produced by the
`try`/`catch` wrapper when `generatePersonaResponse` throws. -/
inductive ApiError where
  | InvalidArgument
  | NotFound
  | Internal
deriving DecidableEq

/-- The destructured body of `POST /api/chat`
(`const { message, personaId, sessionId, context } = req.body`); absent
fields are `none`. -/
structure ChatRequest where
  message : Option String
  personaId : Option String
  sessionId : Option String
  context : Option ChatContext
deriving DecidableEq

/-- The JSON object returned on success by `POST /api/chat`. -/
structure ChatResponse where
  message : String
  personaId : String
  traits : List Trait
  confidence : ℚ
  suggestedActions : List String
deriving DecidableEq

/-- JavaScript falsiness of an optional string field (`!message`):
true exactly for a missing field or the empty string. -/
def strFalsy : Option String → Bool
  | none => true
  | some s => s == ""

/-- The `POST /api/chat` route of `unnamed/part_000` lines 114–143:
400 when `!message || !personaId`; 404 when the id is not a key of
`aiPersonas`; otherwise the response of `generatePersonaResponse` wrapped
with the persona's traits, the constant confidence `0.85` and the
constant suggested-action list. -/
def chatHandler (req : ChatRequest) (r : Nat) : Except ApiError ChatResponse :=
  if strFalsy req.message || strFalsy req.personaId then
    Except.error ApiError.InvalidArgument
  else
    let pid := req.personaId.getD ""
    match List.lookup pid backendRegistry with
    | none => Except.error ApiError.NotFound
    | some persona =>
      match generatePersonaResponse (req.message.getD "") persona req.context r with
      | none => Except.error ApiError.Internal
      | some response =>
        Except.ok
          { message := response
            personaId := pid
            traits := persona.traits
            confidence := 0.85
            suggestedActions := ["Add to Personality", "Ask Follow-up", "Change Topic"] }

/-- The destructured body of `PUT /api/personality`. -/
structure PersonalityUpdateRequest where
  personaId : Option String
  traitId : Option String
  action : Option String
  intensity : Option ℚ
  feedback : Option String
deriving DecidableEq

structure PersonalityUpdateResponse where
  success : Bool
  message : String
deriving DecidableEq

/-- The `PUT /api/personality` route of `unnamed/part_000` lines 146–159.
The source only logs the destructured fields and sends
`{ success: true, message: 'Personality updated successfully' }`; the
persona registry is module-level and the handler never writes to it, which
the embedding makes explicit by threading the registry through as state
and returning it untouched. -/
def personalityHandler (registry : List (String × Persona))
    (req : PersonalityUpdateRequest) :
    PersonalityUpdateResponse × List (String × Persona) :=
  ({ success := true, message := "Personality updated successfully" }, registry)

/-! ## Frontend navigation state (`App` in `AIService.ts` lines 641–666)

The React component's pieces of `useState` form the navigation state; the
three click handlers are its transitions.  Planet/trait coordinates are
triples of rationals. -/

def Vec3 : Type := ℚ × ℚ × ℚ

instance : DecidableEq Vec3 := by
  unfold Vec3
  infer_instance

/-- A frontend persona (the `AIPersona` interface): like the backend
record but with a `position` used for camera targeting. -/
structure AIPersona where
  id : String
  name : String
  description : String
  traits : List Trait
  position : Vec3
  color : String
deriving DecidableEq

def curiousTrait : Trait :=
  { id := "curious", name := "Curious",
    description := "Drives exploration and questioning",
    tags := ["exploration", "questioning", "learning"],
    intensity := 0.9, inherited := false }

def socraticTrait : Trait :=
  { id := "socratic", name := "Socratic",
    description := "Uses questions to guide discovery",
    tags := ["questioning", "guidance", "discovery"],
    intensity := 0.8, inherited := false }

def visualExplanationTrait : Trait :=
  { id := "visual-explanation", name := "Visual Explanation Preferred",
    description := "Uses diagrams and visual aids",
    tags := ["visual", "diagrams", "aids"],
    intensity := 0.7, inherited := false }

def mentorshipTrait : Trait :=
  { id := "mentorship", name := "Mentorship Vibe",
    description := "Acts as a supportive mentor figure",
    tags := ["mentor", "supportive", "guidance"],
    intensity := 0.8, inherited := false }

def tantricToneTrait : Trait :=
  { id := "tantric-tone", name := "Tantric Tone",
    description := "Uses spiritual and mystical language",
    tags := ["spiritual", "mystical", "esoteric"],
    intensity := 0.8, inherited := false }

def nonDualistTrait : Trait :=
  { id := "non-dualist", name := "Non-dualist Approach",
    description := "Sees unity in apparent opposites",
    tags := ["unity", "oneness", "integration"],
    intensity := 0.9, inherited := false }

def quietPacingTrait : Trait :=
  { id := "quiet-pacing", name := "Quiet Pacing",
    description := "Uses pauses and reflective moments",
    tags := ["reflective", "pauses", "contemplation"],
    intensity := 0.7, inherited := false }

def spartanCoachTrait : Trait :=
  { id := "spartan-coach", name := "Spartan Coach",
    description := "Direct, no-nonsense motivational style",
    tags := ["direct", "motivational", "tough"],
    intensity := 0.9, inherited := false }

def microDataTrait : Trait :=
  { id := "micro-data", name := "Micro-data Obsessive",
    description := "Tracks detailed performance metrics",
    tags := ["analytics", "tracking", "metrics"],
    intensity := 0.8, inherited := false }

def logsEverythingTrait : Trait :=
  { id := "logs-everything", name := "Logs Everything",
    description := "Maintains comprehensive activity records",
    tags := ["logging", "records", "comprehensive"],
    intensity := 0.7, inherited := false }

def tutorFrontend : AIPersona :=
  { id := "tutor", name := "AI Tutor",
    description := "Educational companion with Socratic approach",
    traits := [curiousTrait, socraticTrait, visualExplanationTrait, mentorshipTrait],
    position := (4, 0, 0), color := "#64b5f6" }

def spiritualFrontend : AIPersona :=
  { id := "spiritual", name := "Spiritual Coach",
    description := "Mindfulness and spiritual guidance companion",
    traits := [tantricToneTrait, nonDualistTrait, quietPacingTrait],
    position := (-3, 0, 2), color := "#81c784" }

def gymFrontend : AIPersona :=
  { id := "gym", name := "Gym AI",
    description := "Fitness and discipline coach",
    traits := [spartanCoachTrait, microDataTrait, logsEverythingTrait],
    position := (0, 0, -4), color := "#ffb74d" }

/-- The frontend `aiPersonas` array (the planets). -/
def frontendPersonas : List AIPersona :=
  [tutorFrontend, spiritualFrontend, gymFrontend]

/-- The view stages `'solar' | 'planet' | 'trait'`. -/
inductive Stage where
  | solar
  | planet
  | trait
deriving DecidableEq

/-- The `App` component's navigation-relevant `useState` pieces. -/
structure NavState where
  stage : Stage
  selectedPersona : Option AIPersona
  selectedTrait : Option Trait
  targetPosition : Vec3
  isChatOpen : Bool
deriving DecidableEq

/-- Initial state of `App`: stage `'solar'`, nothing selected, target
`[0, 0, 0]`, chat closed. -/
def navInit : NavState :=
  { stage := Stage.solar
    selectedPersona := none
    selectedTrait := none
    targetPosition := ((0 : ℚ), (0 : ℚ), (0 : ℚ))
    isChatOpen := false }

/-- `handlePlanetClick` (lines 649–654): select the persona, enter planet
stage, aim at its position, open the chat.  Note: `selectedTrait` is not
touched. -/
def handlePlanetClick (s : NavState) (persona : AIPersona) : NavState :=
  { s with
    selectedPersona := some persona
    stage := Stage.planet
    targetPosition := persona.position
    isChatOpen := true }

/-- `handleTraitClick` (lines 656–660): select the trait, enter trait
stage, aim at the supplied position.  The source performs no membership
check of the trait against the focused persona and has no failure path. -/
def handleTraitClick (s : NavState) (t : Trait) (position : Vec3) : NavState :=
  { s with
    selectedTrait := some t
    stage := Stage.trait
    targetPosition := position }

/-- `handleBackToSolar` (lines 662–666): back to solar stage, clearing
both selections.  Note: `targetPosition` is not touched. -/
def handleBackToSolar (s : NavState) : NavState :=
  { s with
    stage := Stage.solar
    selectedPersona := none
    selectedTrait := none }

/-- The `Back to Persona` button of the trait panel (line 879):
`onClick={() => setStage('planet')}` — only the stage changes; in
particular `selectedTrait` is not cleared. -/
def handleBackToPlanet (s : NavState) : NavState :=
  { s with stage := Stage.planet }

/-- Navigation states reachable through the UI.  Guards record when each
handler's widget is actually rendered: planets only at the solar stage;
trait nodes only at the planet stage with a persona selected, and only
for traits of that persona (their screen coordinates are arbitrary
rationals here — the UI derives them trigonometrically, which is
irrelevant to the focus bookkeeping); the back-to-persona button only on
the trait panel (stage `'trait'` with a selected trait); the
back-to-solar buttons only on the planet and trait panels. -/
inductive ReachableUI : NavState → Prop where
  | init : ReachableUI navInit
  | selectPersona (s : NavState) (p : AIPersona) :
      ReachableUI s → s.stage = Stage.solar → p ∈ frontendPersonas →
      ReachableUI (handlePlanetClick s p)
  | selectTrait (s : NavState) (p : AIPersona) (t : Trait) (pos : Vec3) :
      ReachableUI s → s.stage = Stage.planet → s.selectedPersona = some p →
      t ∈ p.traits → ReachableUI (handleTraitClick s t pos)
  | back (s : NavState) :
      ReachableUI s → s.stage = Stage.trait → s.selectedTrait ≠ none →
      ReachableUI (handleBackToPlanet s)
  | backToSolar (s : NavState) :
      ReachableUI s →
      ((s.stage = Stage.planet ∧ s.selectedPersona ≠ none) ∨
        (s.stage = Stage.trait ∧ s.selectedTrait ≠ none)) →
      ReachableUI (handleBackToSolar s)

/-! ## Helper lemmas -/

set_option maxRecDepth 8192

/-- A persona record used to exercise the unknown-id path of the selector
directly (no persona with this id exists in the registry or the pool
tables). -/
def unknownPersona : Persona :=
  { id := "unknown-id"
    name := "Unknown"
    description := "a persona id with no dedicated response pool"
    traits := []
    color := "#000000"
    personality := { basePrompt := "", traits := [] } }

/-- The classification-matched pool table entry for a persona id, as the
spec describes it ("each persona id maps to two fixed pools … one for
Greeting and one for General"). -/
def poolFor (pid : String) : Classification → Option (List String)
  | Classification.Greeting => List.lookup pid greetingsTable
  | Classification.General => List.lookup pid responsesTable

theorem generatePersonaResponse_greeting (m : String) (p : Persona)
    (ctx : Option ChatContext) (r : Nat)
    (h : classifyMessage m = Classification.Greeting) :
    generatePersonaResponse m p ctx r =
      match List.lookup p.id greetingsTable with
      | some pool => pool[r % pool.length]?
      | none => none := by
  unfold generatePersonaResponse
  rw [h]

theorem generatePersonaResponse_general (m : String) (p : Persona)
    (ctx : Option ChatContext) (r : Nat)
    (h : classifyMessage m = Classification.General) :
    generatePersonaResponse m p ctx r =
      ((List.lookup p.id responsesTable).getD tutorResponses)[
        r % ((List.lookup p.id responsesTable).getD tutorResponses).length]? := by
  unfold generatePersonaResponse
  rw [h]

theorem getElem?_mod_mem {α : Type} (l : List α) (hl : l ≠ []) (r : Nat) :
    ∃ s, l[r % l.length]? = some s ∧ s ∈ l := by
  have hlen : 0 < l.length := List.length_pos.2 hl
  have hm : r % l.length < l.length := Nat.mod_lt _ hlen
  exact ⟨l[r % l.length], by simp [List.getElem?_eq_getElem hm], List.getElem_mem hm⟩

theorem lookup_backendRegistry_eq (pid : String) (p : Persona)
    (h : List.lookup pid backendRegistry = some p) :
    (pid = "tutor" ∧ p = tutorBackend) ∨ (pid = "spiritual" ∧ p = spiritualBackend) ∨
      (pid = "gym" ∧ p = gymBackend) := by
  by_cases h1 : pid = "tutor"
  · subst h1
    rw [backendRegistry, List.lookup_cons_self] at h
    exact Or.inl ⟨rfl, (Option.some.inj h).symm⟩
  · by_cases h2 : pid = "spiritual"
    · subst h2
      simp only [backendRegistry, List.lookup_cons, beq_false_of_ne h1,
        beq_self_eq_true, Option.some.injEq] at h
      exact Or.inr (Or.inl ⟨rfl, h.symm⟩)
    · by_cases h3 : pid = "gym"
      · subst h3
        simp only [backendRegistry, List.lookup_cons, beq_false_of_ne h1,
          beq_false_of_ne h2, beq_self_eq_true, Option.some.injEq] at h
        exact Or.inr (Or.inr ⟨rfl, h.symm⟩)
      · simp only [backendRegistry, List.lookup_cons, beq_false_of_ne h1,
          beq_false_of_ne h2, beq_false_of_ne h3, List.lookup_nil] at h
        exact Option.noConfusion h

theorem lookup_pools_none (pid : String)
    (h : pid ∉ (["tutor", "spiritual", "gym"] : List String)) :
    List.lookup pid greetingsTable = none ∧ List.lookup pid responsesTable = none := by
  simp only [List.mem_cons, List.not_mem_nil, or_false, not_or] at h
  obtain ⟨h1, h2, h3⟩ := h
  constructor
  · simp only [greetingsTable, List.lookup_cons, beq_false_of_ne h1,
      beq_false_of_ne h2, beq_false_of_ne h3, List.lookup_nil]
  · simp only [responsesTable, List.lookup_cons, beq_false_of_ne h1,
      beq_false_of_ne h2, beq_false_of_ne h3, List.lookup_nil]

/-! ## Claims -/

/-- C1 (counterexample): the claimed tutor fallback does NOT cover the
Greeting classification.  The persona id `"unknown-id"` has no dedicated
pool, the message `"hello"` classifies as Greeting, and
`generatePersonaResponse` yields `none` (the JavaScript code throws on
`greetings[persona.id][...]` with `greetings[persona.id]` undefined)
instead of a member of the tutor Greeting pool. -/
theorem c1_greeting_fallback_counterexample :
    unknownPersona.id ∉ (["tutor", "spiritual", "gym"] : List String) ∧
    classifyMessage ("hello") = Classification.Greeting ∧
    generatePersonaResponse ("hello") unknownPersona none 0 = none := by
  exact ⟨by decide, by decide, by decide⟩

/-- C1 (amended): for a persona id with no dedicated pool, the fallback to
the tutor pool exists only for the General classification (the source
reads `responses[persona.id] || responses['tutor']`); in the Greeting
branch the pool lookup has no fallback, and the call fails (`none`,
modeling the thrown `TypeError`) instead of returning a tutor Greeting
string. -/
theorem c1_fallback_general_only (p : Persona) (m : String)
    (ctx : Option ChatContext) (r : Nat)
    (hp : p.id ∉ (["tutor", "spiritual", "gym"] : List String)) :
    (classifyMessage m = Classification.Greeting →
      generatePersonaResponse m p ctx r = none) ∧
    (classifyMessage m = Classification.General →
      ∃ s, generatePersonaResponse m p ctx r = some s ∧ s ∈ tutorResponses) := by
  obtain ⟨hg, hr⟩ := lookup_pools_none p.id hp
  constructor
  · intro hcl
    rw [generatePersonaResponse_greeting m p ctx r hcl, hg]
  · intro hcl
    rw [generatePersonaResponse_general m p ctx r hcl, hr]
    exact getElem?_mod_mem tutorResponses (by decide) r

/-- C1 (witness for the amended theorem at a concrete input). -/
theorem c1_fallback_general_only_witness :
    generatePersonaResponse ("hello") unknownPersona none 0 = none ∧
    generatePersonaResponse ("a question") unknownPersona none 5 = some (tutorResponses[1]!) := by
  refine ⟨(c1_fallback_general_only unknownPersona ("hello") none 0 (by decide)).1 (by decide), ?_⟩
  obtain ⟨s, hs, _⟩ :=
    (c1_fallback_general_only unknownPersona ("a question") none 5 (by decide)).2 (by decide)
  rw [hs]
  rw [show s = tutorResponses[1]! from Option.some.inj (hs.symm.trans (by decide))]

/-- C2 (counterexample): after selecting the tutor persona,
`handleBackToSolar` returns to the solar stage and clears both selections
but does NOT reset `targetPosition` to `(0, 0, 0)`: it stays at the
tutor's position `(4, 0, 0)`. -/
theorem c2_backToSolar_counterexample :
    (handlePlanetClick navInit tutorFrontend).selectedPersona = some tutorFrontend ∧
    (handleBackToSolar (handlePlanetClick navInit tutorFrontend)).stage = Stage.solar ∧
    (handleBackToSolar (handlePlanetClick navInit tutorFrontend)).targetPosition ≠
      (((0 : ℚ), (0 : ℚ), (0 : ℚ)) : Vec3) := by
  exact ⟨rfl, rfl, by decide⟩

/-- C2 (amended): from any state, `handleBackToSolar` sets the stage to
Solar and clears both focus references while leaving `targetPosition`
unchanged (the source never writes `setTargetPosition` there; the default
solar camera aim is reconstructed by the rendering layer, not by this
state).  From any state — in particular from Solar — `handlePlanetClick p`
enters the planet stage with `targetPosition = p.position`. -/
theorem c2_backToSolar_selectPersona (s sSolar : NavState) (q p : AIPersona)
    (hq : s.selectedPersona = some q) (hs : sSolar.stage = Stage.solar) :
    handleBackToSolar s =
      { s with stage := Stage.solar, selectedPersona := none, selectedTrait := none } ∧
    (handlePlanetClick sSolar p).stage = Stage.planet ∧
    (handlePlanetClick sSolar p).targetPosition = p.position ∧
    (handleBackToSolar s).targetPosition = s.targetPosition := by
  exact ⟨rfl, rfl, rfl, rfl⟩

/-- C2 (witness for the amended theorem at a concrete input). -/
theorem c2_backToSolar_selectPersona_witness :
    handleBackToSolar (handlePlanetClick navInit tutorFrontend) =
      { (handlePlanetClick navInit tutorFrontend) with
        stage := Stage.solar
        selectedPersona := none
        selectedTrait := none } ∧
    (handlePlanetClick navInit tutorFrontend).stage = Stage.planet ∧
    (handlePlanetClick navInit tutorFrontend).targetPosition = tutorFrontend.position ∧
    (handleBackToSolar (handlePlanetClick navInit tutorFrontend)).targetPosition =
      (handlePlanetClick navInit tutorFrontend).targetPosition :=
  c2_backToSolar_selectPersona (handlePlanetClick navInit tutorFrontend) navInit
    tutorFrontend tutorFrontend rfl rfl

/-- C3 (counterexample): `handleTraitClick` with the gym persona's
`spartan-coach` trait while the tutor persona is focused does not fail and
does not leave the state unchanged — it silently proceeds, selecting the
foreign trait and entering the trait stage. -/
theorem c3_no_invalid_state_counterexample :
    spartanCoachTrait ∉ tutorFrontend.traits ∧
    (handlePlanetClick navInit tutorFrontend).selectedPersona = some tutorFrontend ∧
    handleTraitClick (handlePlanetClick navInit tutorFrontend) spartanCoachTrait
        (((1 : ℚ), (0 : ℚ), (0 : ℚ)) : Vec3) ≠
      handlePlanetClick navInit tutorFrontend ∧
    (handleTraitClick (handlePlanetClick navInit tutorFrontend) spartanCoachTrait
        (((1 : ℚ), (0 : ℚ), (0 : ℚ)) : Vec3)).selectedTrait = some spartanCoachTrait := by
  refine ⟨by decide, rfl, fun h => ?_, rfl⟩
  exact Stage.noConfusion (congrArg NavState.stage h)

/-- C3 (amended): `handleTraitClick` performs no membership validation and
has no failure path: for every state, every trait — in particular one that
is not among the focused persona's traits — and every position, it
unconditionally sets stage `'trait'`, `selectedTrait` and
`targetPosition`, leaving the other fields unchanged. -/
theorem c3_selectTrait_no_validation (s : NavState) (t : Trait) (pos : Vec3)
    (hnot : t ∉ ((s.selectedPersona.map AIPersona.traits).getD [])) :
    handleTraitClick s t pos =
      { s with stage := Stage.trait, selectedTrait := some t, targetPosition := pos } :=
  rfl

/-- C3 (witness for the amended theorem at a concrete input). -/
theorem c3_selectTrait_no_validation_witness :
    handleTraitClick (handlePlanetClick navInit tutorFrontend) spartanCoachTrait
        (((1 : ℚ), (0 : ℚ), (0 : ℚ)) : Vec3) =
      { (handlePlanetClick navInit tutorFrontend) with
        stage := Stage.trait
        selectedTrait := some spartanCoachTrait
        targetPosition := (((1 : ℚ), (0 : ℚ), (0 : ℚ)) : Vec3) } :=
  c3_selectTrait_no_validation (handlePlanetClick navInit tutorFrontend) spartanCoachTrait
    (((1 : ℚ), (0 : ℚ), (0 : ℚ)) : Vec3) (by decide)

/-- C4 (counterexample): the state reached through the UI by selecting the
tutor planet, selecting its `curious` trait, and pressing the trait
panel's back-to-persona button is at the planet stage with
`selectedTrait` still set — `focusedTrait` is non-null while the stage is
not TraitFocus, refuting the claimed invariant (the back button only runs
`setStage('planet')` and never clears the trait). -/
theorem c4_invariant_counterexample :
    ReachableUI (handleBackToPlanet (handleTraitClick (handlePlanetClick navInit tutorFrontend)
      curiousTrait (((2 : ℚ), (0 : ℚ), (0 : ℚ)) : Vec3))) ∧
    (handleBackToPlanet (handleTraitClick (handlePlanetClick navInit tutorFrontend)
      curiousTrait (((2 : ℚ), (0 : ℚ), (0 : ℚ)) : Vec3))).stage ≠ Stage.trait ∧
    (handleBackToPlanet (handleTraitClick (handlePlanetClick navInit tutorFrontend)
      curiousTrait (((2 : ℚ), (0 : ℚ), (0 : ℚ)) : Vec3))).selectedTrait = some curiousTrait := by
  refine ⟨?_, by decide, rfl⟩
  exact ReachableUI.back _
    (ReachableUI.selectTrait _ tutorFrontend curiousTrait _
      (ReachableUI.selectPersona _ _ ReachableUI.init rfl (List.Mem.head _))
      rfl rfl (List.Mem.head _))
    rfl (fun h => Option.noConfusion h)

/-- C4 (amended): over all UI-reachable navigation states, the half of the
invariant about `focusedPersona` holds — it is non-null whenever the stage
is not Solar — and `focusedTrait` is null at the Solar stage; but
`focusedTrait` being non-null does NOT imply stage TraitFocus (the
back-to-persona transition keeps the trait selected at the planet stage,
as the counterexample shows). -/
theorem c4_reachable_invariant (s : NavState) (h : ReachableUI s) :
    (s.stage ≠ Stage.solar → s.selectedPersona ≠ none) ∧
    (s.stage = Stage.solar → s.selectedTrait = none) := by
  induction h with
  | init => exact ⟨fun hc => absurd rfl hc, fun _ => rfl⟩
  | selectPersona s p hr hs hp ih =>
    exact ⟨fun _ hc => Option.noConfusion hc, fun hc => Stage.noConfusion hc⟩
  | selectTrait s p t pos hr hs hsel hmem ih =>
    refine ⟨fun _ => ?_, fun hc => Stage.noConfusion hc⟩
    show s.selectedPersona ≠ none
    rw [hsel]
    exact fun hc => Option.noConfusion hc
  | back s hr hs hsel ih =>
    refine ⟨fun _ => ?_, fun hc => Stage.noConfusion hc⟩
    show s.selectedPersona ≠ none
    exact ih.1 (by rw [hs]; exact fun hc => Stage.noConfusion hc)
  | backToSolar s hr hguard ih =>
    exact ⟨fun hc => absurd rfl hc, fun _ => rfl⟩

/-- C4 (witness for the amended theorem at a concrete reachable state). -/
theorem c4_reachable_invariant_witness :
    (handleBackToSolar (handlePlanetClick navInit tutorFrontend)).selectedTrait = none :=
  (c4_reachable_invariant (handleBackToSolar (handlePlanetClick navInit tutorFrontend))
    (ReachableUI.backToSolar _
      (ReachableUI.selectPersona _ _ ReachableUI.init rfl (List.Mem.head _))
      (Or.inl ⟨rfl, fun hc => Option.noConfusion hc⟩))).2 rfl

/-- C5: the classifier lower-cases the message and returns Greeting
exactly when the lower-cased text contains `"hi"`, `"hello"` or `"hey"`
as a contiguous substring — plain substring containment, not a
word-boundary match — so in particular `"this"` (which contains `"hi"`)
classifies as Greeting; all other messages classify as General. -/
theorem c5_greeting_substring :
    (∀ m : String, classifyMessage m = Classification.Greeting ↔
      (SubstringOf ("hi") (lowerString m) ∨ SubstringOf ("hello") (lowerString m) ∨
        SubstringOf ("hey") (lowerString m))) ∧
    classifyMessage ("this") = Classification.Greeting := by
  refine ⟨fun m => ?_, by decide⟩
  simp only [classifyMessage]
  split
  · next hcond =>
    simp only [Bool.or_eq_true, strIncludes_iff] at hcond
    exact ⟨fun _ => by tauto, fun _ => rfl⟩
  · next hcond =>
    simp only [Bool.or_eq_true, strIncludes_iff] at hcond
    exact ⟨fun hc => Classification.noConfusion hc, fun hc => absurd (by tauto) hcond⟩

/-- Packaging of the success and closure facts for one resolved pool:
whenever the classification-matched pool of `q` is `pool` and the
selector's result is the `r mod |pool|` entry of `pool`, the selector
succeeds and every possible output lies in the pool. -/
theorem selector_closure_case (q : Persona) (m : String) (ctx : Option ChatContext)
    (r : Nat) (pool : List String) (hne : pool ≠ [])
    (hpool : poolFor q.id (classifyMessage m) = some pool)
    (hgen : generatePersonaResponse m q ctx r = pool[r % pool.length]?) :
    (generatePersonaResponse m q ctx r).isSome = true ∧
    (∀ s, generatePersonaResponse m q ctx r = some s →
      s ∈ (poolFor q.id (classifyMessage m)).getD []) := by
  obtain ⟨s, hs, hmem⟩ := getElem?_mod_mem pool hne r
  refine ⟨by rw [hgen, hs]; rfl, fun s0 h0 => ?_⟩
  rw [hgen, hs] at h0
  cases Option.some.inj h0
  rw [hpool]
  simpa using hmem

/-- C6: for each persona resolved from the registry (ids `tutor`,
`spiritual`, `gym`), the Greeting pool has exactly 3 entries and the
General pool exactly 4; for every message, context and random draw the
selector succeeds, and every possible output is a member of that
persona's classification-matched pool (closure). -/
theorem c6_pool_sizes_and_closure (pid : String) (p : Persona)
    (hp : List.lookup pid backendRegistry = some p)
    (m : String) (ctx : Option ChatContext) (r : Nat) :
    ((List.lookup pid greetingsTable).getD []).length = 3 ∧
    ((List.lookup pid responsesTable).getD []).length = 4 ∧
    (generatePersonaResponse m p ctx r).isSome = true ∧
    (∀ s, generatePersonaResponse m p ctx r = some s →
      s ∈ (poolFor p.id (classifyMessage m)).getD []) := by
  rcases lookup_backendRegistry_eq pid p hp with ⟨hpid, hpe⟩ | ⟨hpid, hpe⟩ | ⟨hpid, hpe⟩ <;>
    subst hpid <;> subst hpe
  · cases hcl : classifyMessage m with
    | Greeting =>
      have hcc := selector_closure_case tutorBackend m ctx r tutorGreetings (by decide)
        (by rw [hcl]; rfl) (by rw [generatePersonaResponse_greeting m tutorBackend ctx r hcl]; rfl)
      rw [hcl] at hcc
      exact ⟨rfl, rfl, hcc.1, hcc.2⟩
    | General =>
      have hcc := selector_closure_case tutorBackend m ctx r tutorResponses (by decide)
        (by rw [hcl]; rfl) (by rw [generatePersonaResponse_general m tutorBackend ctx r hcl]; rfl)
      rw [hcl] at hcc
      exact ⟨rfl, rfl, hcc.1, hcc.2⟩
  · cases hcl : classifyMessage m with
    | Greeting =>
      have hcc := selector_closure_case spiritualBackend m ctx r spiritualGreetings (by decide)
        (by rw [hcl]; rfl) (by rw [generatePersonaResponse_greeting m spiritualBackend ctx r hcl]; rfl)
      rw [hcl] at hcc
      exact ⟨rfl, rfl, hcc.1, hcc.2⟩
    | General =>
      have hcc := selector_closure_case spiritualBackend m ctx r spiritualResponses (by decide)
        (by rw [hcl]; rfl) (by rw [generatePersonaResponse_general m spiritualBackend ctx r hcl]; rfl)
      rw [hcl] at hcc
      exact ⟨rfl, rfl, hcc.1, hcc.2⟩
  · cases hcl : classifyMessage m with
    | Greeting =>
      have hcc := selector_closure_case gymBackend m ctx r gymGreetings (by decide)
        (by rw [hcl]; rfl) (by rw [generatePersonaResponse_greeting m gymBackend ctx r hcl]; rfl)
      rw [hcl] at hcc
      exact ⟨rfl, rfl, hcc.1, hcc.2⟩
    | General =>
      have hcc := selector_closure_case gymBackend m ctx r gymResponses (by decide)
        (by rw [hcl]; rfl) (by rw [generatePersonaResponse_general m gymBackend ctx r hcl]; rfl)
      rw [hcl] at hcc
      exact ⟨rfl, rfl, hcc.1, hcc.2⟩

/-- C6 (witness at a concrete input: the gym persona, a greeting message,
draw 5, i.e. index 2). -/
theorem c6_pool_sizes_and_closure_witness :
    ((List.lookup ("gym") greetingsTable).getD []).length = 3 ∧
    ((List.lookup ("gym") responsesTable).getD []).length = 4 ∧
    (generatePersonaResponse ("hey coach") gymBackend none 5).isSome = true ∧
    gymGreetings[2]! ∈ (poolFor ("gym") (classifyMessage ("hey coach"))).getD [] := by
  have h := c6_pool_sizes_and_closure ("gym") gymBackend rfl ("hey coach") none 5
  exact ⟨h.1, h.2.1, h.2.2.1, h.2.2.2 (gymGreetings[2]!) (by decide)⟩

/-- C7 (counterexample): with a non-empty message and the empty string as
`personaId` — a value that is present but absent from the registry — the
chat route answers 400 (`InvalidArgument`, because `!personaId` is true
for the empty string), not the 404 (`NotFound`) the claim requires for
every id absent from the registry. -/
theorem c7_empty_personaId_counterexample :
    List.lookup ("") backendRegistry = none ∧
    chatHandler { message := some "good morning", personaId := some "", sessionId := none, context := none } 0 = Except.error ApiError.InvalidArgument ∧
    chatHandler { message := some "good morning", personaId := some "", sessionId := none, context := none } 0 ≠ Except.error ApiError.NotFound := by
  refine ⟨rfl, rfl, fun h => ?_⟩
  exact ApiError.noConfusion (Except.error.inj h)

/-- C7 (amended): the chat route fails with 400 (`InvalidArgument`)
whenever the message is empty or missing, or the personaId is missing —
and also when the personaId is the empty string; it fails with 404
(`NotFound`) whenever the request passes that falsiness validation (both
fields present and non-empty) and the personaId is absent from the
registry.  Both failures are `Except.error` values, which carry no
response string. -/
theorem c7_validation_errors (req : ChatRequest) (r : Nat) :
    ((req.message = none ∨ req.message = some "" ∨ req.personaId = none ∨
        req.personaId = some "") →
      chatHandler req r = Except.error ApiError.InvalidArgument) ∧
    (∀ pid, req.personaId = some pid → pid ≠ "" → strFalsy req.message = false →
      List.lookup pid backendRegistry = none →
      chatHandler req r = Except.error ApiError.NotFound) := by
  constructor
  · intro hcase
    have hval : (strFalsy req.message || strFalsy req.personaId) = true := by
      rcases hcase with h | h | h | h <;> rw [h] <;> simp [strFalsy]
    rw [chatHandler, if_pos hval]
  · intro pid hpid hne hmsg hlook
    have hval : (strFalsy req.message || strFalsy req.personaId) = false := by
      rw [hmsg, hpid]
      simpa [strFalsy] using hne
    rw [chatHandler, if_neg (by rw [hval]; exact Bool.false_ne_true)]
    rw [hpid]
    simp only [Option.getD_some]
    rw [hlook]

/-- C7 (witness at concrete inputs: a missing message gives 400; an
unknown non-empty persona id gives 404). -/
theorem c7_validation_errors_witness :
    chatHandler { message := none, personaId := some "tutor", sessionId := none, context := none } 0 = Except.error ApiError.InvalidArgument ∧
    chatHandler { message := some "good day", personaId := some "nobody", sessionId := none, context := none } 3 = Except.error ApiError.NotFound :=
  ⟨(c7_validation_errors { message := none, personaId := some "tutor", sessionId := none, context := none } 0).1 (Or.inl rfl),
   (c7_validation_errors { message := some "good day", personaId := some "nobody", sessionId := none, context := none } 3).2 ("nobody") rfl (by decide) rfl rfl⟩

/-- C8: every successful chat response consists of a selected string as
`message`, the echoed persona id, the persona's trait list, the constant
confidence `0.85` and the constant suggested-action list, independent of
the input message and persona. -/
theorem c8_response_wrapping (req : ChatRequest) (r : Nat) (resp : ChatResponse)
    (hok : chatHandler req r = Except.ok resp) :
    resp.confidence = 0.85 ∧
    resp.suggestedActions = ["Add to Personality", "Ask Follow-up", "Change Topic"] ∧
    resp.personaId = req.personaId.getD "" ∧
    (∀ persona, List.lookup (req.personaId.getD "") backendRegistry = some persona →
      resp.traits = persona.traits ∧
      generatePersonaResponse (req.message.getD "") persona req.context r =
        some resp.message) := by
  by_cases hval : (strFalsy req.message || strFalsy req.personaId) = true
  · rw [chatHandler, if_pos hval] at hok
    exact Except.noConfusion hok
  · rw [chatHandler, if_neg hval] at hok
    simp only at hok
    cases hlook : List.lookup (req.personaId.getD "") backendRegistry with
    | none =>
      rw [hlook] at hok
      exact Except.noConfusion hok
    | some persona0 =>
      rw [hlook] at hok
      dsimp only at hok
      cases hgen : generatePersonaResponse (req.message.getD "") persona0 req.context r with
      | none =>
        rw [hgen] at hok
        exact Except.noConfusion hok
      | some s =>
        rw [hgen] at hok
        cases Except.ok.inj hok
        refine ⟨rfl, rfl, rfl, fun persona hper => ?_⟩
        cases Option.some.inj hper
        exact ⟨rfl, hgen⟩

/-- Concrete chat request and response used by the C8 witness. -/
def c8Request : ChatRequest :=
  { message := some "hi", personaId := some "gym", sessionId := none, context := none }

def c8Response : ChatResponse :=
  { message := gymGreetings[1]!
    personaId := "gym"
    traits := gymBackend.traits
    confidence := 0.85
    suggestedActions := ["Add to Personality", "Ask Follow-up", "Change Topic"] }

/-- C8 (witness at a concrete successful request). -/
theorem c8_response_wrapping_witness :
    c8Response.confidence = 0.85 ∧
    c8Response.suggestedActions = ["Add to Personality", "Ask Follow-up", "Change Topic"] ∧
    c8Response.personaId = "gym" ∧
    c8Response.traits = gymBackend.traits :=
  ⟨(c8_response_wrapping c8Request 1 c8Response rfl).1,
   (c8_response_wrapping c8Request 1 c8Response rfl).2.1,
   (c8_response_wrapping c8Request 1 c8Response rfl).2.2.1,
   ((c8_response_wrapping c8Request 1 c8Response rfl).2.2.2 gymBackend rfl).1⟩

/-- C9: the personality-update route accepts any request — including ids
that do not exist — answers `success := true`, and leaves the persona
registry (hence every persona's traits and their intensities) completely
unchanged. -/
theorem c9_personality_update_noop (registry : List (String × Persona))
    (req : PersonalityUpdateRequest) :
    (personalityHandler registry req).1.success = true ∧
    (personalityHandler registry req).2 = registry :=
  ⟨rfl, rfl⟩

theorem generatePersonaResponse_context_blind (m : String) (p : Persona)
    (c1 c2 : Option ChatContext) (r : Nat) :
    generatePersonaResponse m p c1 r = generatePersonaResponse m p c2 r := rfl

/-- C10: two chat requests with the same message and persona id but
arbitrary different session ids and contexts produce identical outcomes
for every random draw — the handler and the selector never read
`sessionId` or `context`. -/
theorem c10_session_context_independence (message personaId sid1 sid2 : Option String)
    (ctx1 ctx2 : Option ChatContext) (r : Nat) :
    chatHandler { message := message, personaId := personaId, sessionId := sid1, context := ctx1 } r =
      chatHandler { message := message, personaId := personaId, sessionId := sid2, context := ctx2 } r := rfl
